import Mathlib

/-!
Verification of the client-side session and authenticated-request layer of the
Goalstone repository. The definitions below are a shallow embedding of the
JavaScript source:

  * `Frontend/src/services/api.js` (token management, axios response
    interceptor, `authAPI.login` / `logout` / `getCurrentUser`);
  * `Frontend/src/hooks/useAuth.js` (`AuthProvider`: `initAuth`, `login`,
    `logout`);
  * `ProtectedRoute` (route guard) and the `Home` page's login-prompt effect.
-/

namespace Goalstone

/-- Prefix test on character lists: `strStarts needle hay` is true when
`needle` is an initial segment of `hay`. -/
def strStarts : List Char → List Char → Bool
  | [], _ => true
  | _ :: _, [] => false
  | a :: as, b :: bs => a == b && strStarts as bs

/-- `listContainsSeq needle hay` is true when `needle` occurs as a contiguous
subsequence of `hay`. -/
def listContainsSeq (needle : List Char) : List Char → Bool
  | [] => strStarts needle []
  | c :: cs => strStarts needle (c :: cs) || listContainsSeq needle cs

/-- JavaScript `hay.includes(sub)` on strings. -/
def strContains (hay sub : String) : Bool :=
  listContainsSeq sub.data hay.data

/-- `error.config?.url?.includes(sub)` coerced to boolean: an absent url gives
`undefined`, which is falsy. -/
def urlHas (u : Option String) (sub : String) : Bool :=
  match u with
  | none => false
  | some s => strContains s sub

/-- The shape of an axios rejection as far as the response interceptor reads
it: `error.response?.status` (`none` models a connectivity failure where no
response exists) and `error.config?.url`. -/
structure HttpError where
  status : Option Nat
  url : Option String
deriving DecidableEq

/-- Observable side effects performed by the embedded code: `removeToken` is
`localStorage.removeItem('token')`, `setHref p` is `window.location.href = p`,
`toastError m` is `toast.error(m)`. -/
inductive Effect where
  | removeToken
  | setHref (path : String)
  | toastError (msg : String)
deriving DecidableEq

/-- `statusGe500` embeds `error.response?.status >= 500`; comparing
`undefined >= 500` in JavaScript is false. -/
def statusGe500 : Option Nat → Bool
  | none => false
  | some s => decide (500 ≤ s)

/-- The effect list of the session-expiry branch of the response interceptor
(api.js lines 163-170): `removeToken(); window.location.href = '/';
toast.error('Session expired. Please login again.')`. -/
def sessionExpiredEffects : List Effect :=
  [Effect.removeToken, Effect.setHref "/",
   Effect.toastError "Session expired. Please login again."]

/-- The error handler of `api.interceptors.response.use` (api.js lines
161-176): on 401 with a url containing neither `/auth/login` nor
`/agents/career` it runs `sessionExpiredEffects`; otherwise on a status of at
least 500 it shows a server-error toast; in every other case it performs no
effect. -/
def responseErrorInterceptor (e : HttpError) : List Effect :=
  if e.status = some 401 then
    if !(urlHas e.url "/auth/login") && !(urlHas e.url "/agents/career") then
      sessionExpiredEffects
    else []
  else if statusGe500 e.status then
    [Effect.toastError "Server error. Please try again later."]
  else []

/-- The full result of the interceptor error handler: its effects together
with the unchanged error, which the handler rejects back to the caller
(`return Promise.reject(error)`). -/
def responseInterceptorOnError (e : HttpError) : List Effect × HttpError :=
  ⟨responseErrorInterceptor e, e⟩

/-- The client-local persistent storage as the session code uses it: the two
`localStorage` keys `token` (api.js `getToken` / `setToken` / `removeToken`)
and `user` (written by `authAPI.login`, removed by `authAPI.logout` and the
`getCurrentUser` catch). `none` models an absent key. -/
structure LocalStore where
  token : Option String
  userJson : Option String
deriving DecidableEq

/-- Store semantics of an interceptor effect: `removeToken` deletes the
`token` key; navigation and toasts do not touch storage. -/
def applyEffect (st : LocalStore) : Effect → LocalStore
  | Effect.removeToken => ⟨none, st.userJson⟩
  | Effect.setHref _ => st
  | Effect.toastError _ => st

/-- Fold a list of effects over the store. -/
def applyEffects (st : LocalStore) (l : List Effect) : LocalStore :=
  l.foldl applyEffect st

/-- The in-memory state of `AuthProvider` (useAuth.js lines 15-18): the
`user`, `loading` and `isAuthenticated` React states. -/
structure AuthMem where
  userMem : Option String
  loading : Bool
  isAuthenticated : Bool
deriving DecidableEq

/-- The initial `AuthProvider` state on mount: `useState(null)`,
`useState(true)`, `useState(false)`. -/
def freshAuth : AuthMem := ⟨none, true, false⟩

/-- A state of the session subsystem: persistent store plus in-memory
provider state. -/
structure SessionState where
  store : LocalStore
  auth : AuthMem
deriving DecidableEq

/-- One completed flow of the session subsystem. Each constructor is one
synchronous batch of mutations from the source; store mutation happens within
a single event-loop turn, so each flow is one atomic step. The `startup*`
constructors require the mount-time provider state `freshAuth`, since
`initAuth` runs from the `useEffect` with empty dependency array. The server
is assumed to meet the interface contract: a successful login response
carries a truthy `access_token` (hypothesis `t` nonempty in `loginOk`). -/
inductive SessionStep : SessionState → SessionState → Prop
  /-- `initAuth` with no stored token: only `setLoading(false)` runs. -/
  | startupNoToken (st : LocalStore) (h : st.token = none) :
      SessionStep ⟨st, freshAuth⟩ ⟨st, ⟨none, false, false⟩⟩
  /-- `initAuth` with a stored token and `getCurrentUser` succeeding:
  `setUser(userData); setIsAuthenticated(true); setLoading(false)`; the store
  is not written. -/
  | startupOk (st : LocalStore) (t u : String) (h : st.token = some t) :
      SessionStep ⟨st, freshAuth⟩ ⟨st, ⟨some u, false, true⟩⟩
  /-- `initAuth` with a stored token and `getCurrentUser` failing without a
  401 response: the `getCurrentUser` catch removes both keys, the `initAuth`
  catch calls `authAPI.logout()` (removing both again), then
  `setLoading(false)`. -/
  | startupFailNet (st : LocalStore) (t : String) (h : st.token = some t) :
      SessionStep ⟨st, freshAuth⟩ ⟨⟨none, none⟩, ⟨none, false, false⟩⟩
  /-- `initAuth` with a stored token and `getCurrentUser` rejected with 401:
  the interceptor removes the token and assigns `window.location.href = '/'`,
  the catches clear both keys, and the navigation reloads the page, so the
  provider remounts at `freshAuth`. -/
  | startupFail401 (st : LocalStore) (t : String) (h : st.token = some t) :
      SessionStep ⟨st, freshAuth⟩ ⟨⟨none, none⟩, freshAuth⟩
  /-- `login` succeeding (useAuth.js lines 39-46 with api.js lines 184-190):
  `setToken`, `localStorage.setItem('user', ...)`, `setUser(response.user)`,
  `setIsAuthenticated(true)`, `setLoading(false)`. By the interface contract
  the issued `access_token` is a truthy string. -/
  | loginOk (s : SessionState) (t u : String) (h : t ≠ "") :
      SessionStep s ⟨⟨some t, some u⟩, ⟨some u, false, true⟩⟩
  /-- `login` failing: the interceptor exempts `/auth/login` from the 401
  branch, so storage is untouched; the catch rethrows and the `finally` runs
  `setLoading(false)`. -/
  | loginFail (s : SessionState) :
      SessionStep s ⟨s.store, ⟨s.auth.userMem, false, s.auth.isAuthenticated⟩⟩
  /-- `logout` (useAuth.js lines 73-78): `removeToken`,
  `localStorage.removeItem('user')`, `setUser(null)`,
  `setIsAuthenticated(false)`. -/
  | logoutStep (s : SessionState) :
      SessionStep s ⟨⟨none, none⟩, ⟨none, s.auth.loading, false⟩⟩
  /-- A 401 on any non-exempt endpoint during normal use: the interceptor
  runs `removeToken()` — the `user` key is not removed — and the assignment
  to `window.location.href` reloads the app, remounting the provider. -/
  | expired401 (s : SessionState) :
      SessionStep s ⟨⟨none, s.store.userJson⟩, freshAuth⟩
  /-- A plain page reload: in-memory provider state resets, storage
  persists. -/
  | reload (s : SessionState) :
      SessionStep s ⟨s.store, freshAuth⟩

/-- States reachable from the first-ever process start (empty storage, fresh
provider) through completed session flows. -/
inductive Reachable : SessionState → Prop
  | init : Reachable ⟨⟨none, none⟩, freshAuth⟩
  | next (s s' : SessionState) : Reachable s → SessionStep s s' → Reachable s'

/-- Fine-grained state for the race between startup validation and a login:
the store, the provider memory, and whether the `initAuth` request issued at
mount is still in flight. -/
structure RaceState where
  rstore : LocalStore
  rauth : AuthMem
  initPending : Bool
deriving DecidableEq

/-- Process start with a persisted store: the provider mounts fresh and
`initAuth` issues a `getCurrentUser` request exactly when a token is stored
(useAuth.js lines 20-23). -/
def raceStart (st : LocalStore) : RaceState :=
  ⟨st, freshAuth, st.token.isSome⟩

/-- A login request resolving successfully while in the race: `authAPI.login`
stores token and user when `access_token` is truthy, then the hook runs
`setUser(response.user); setIsAuthenticated(true); setLoading(false)`. The
pending `initAuth` request is neither cancelled nor tracked by any
generation counter. -/
def loginResolveOk (s : RaceState) (t u : String) : RaceState :=
  ⟨if t = "" then s.rstore else ⟨some t, some u⟩, ⟨some u, false, true⟩,
   s.initPending⟩

/-- The pending `initAuth` request resolving with a non-401 failure: the
`getCurrentUser` catch runs `removeToken(); localStorage.removeItem('user')`
and throws, the `initAuth` catch runs `authAPI.logout()` (clearing both keys
again), then `setLoading(false)`; `isAuthenticated` and `user` are not
written. A no-op when no request is pending. -/
def initResolveNetFail (s : RaceState) : RaceState :=
  if s.initPending then
    ⟨⟨none, none⟩, ⟨s.rauth.userMem, false, s.rauth.isAuthenticated⟩, false⟩
  else s

/-- The complete failure path of a login attempt (useAuth.js lines 39-56 with
api.js lines 180-197): the request url is `/auth/login`, the rejection runs
through the response interceptor, `authAPI.login` rethrows, the hook catch
rethrows after the `finally` runs `setLoading(false)`, and the error object
reaches the calling form, which renders it inline (`Home.onSubmit` sets
`loginError`). Storage is never written on this path. The result is the
post-state, the interceptor effects, and the error returned to the caller. -/
def loginFlowFail (s : SessionState) (status : Option Nat) :
    SessionState × List Effect × HttpError :=
  ⟨⟨s.store, ⟨s.auth.userMem, false, s.auth.isAuthenticated⟩⟩,
   responseErrorInterceptor ⟨status, some "/auth/login"⟩,
   ⟨status, some "/auth/login"⟩⟩

/-- Outcome of the `GET /auth/me` request issued by startup validation. -/
inductive FetchOutcome where
  | ok (userJson : String)
  | fail401
  | failNet
deriving DecidableEq

/-- Result of running `initAuth` to completion from the mount state:
the store afterwards, the provider memory afterwards, whether a
`getCurrentUser` request was issued, and the interceptor effects. -/
structure InitAuthResult where
  outStore : LocalStore
  outAuth : AuthMem
  requested : Bool
  effects : List Effect
deriving DecidableEq

/-- `initAuth` (useAuth.js lines 20-37) run from the mount state `freshAuth`:
no stored token means no request and only `setLoading(false)`; with a stored
token, `getCurrentUser` is called — success refreshes the in-memory user and
authenticates; failure clears both storage keys (the `getCurrentUser` catch
plus `authAPI.logout()` in the `initAuth` catch) and leaves the provider
unauthenticated; a 401 failure additionally runs the interceptor on the
`/auth/me` rejection. -/
def initAuthRun (st : LocalStore) (r : FetchOutcome) : InitAuthResult :=
  match st.token with
  | none => ⟨st, ⟨none, false, false⟩, false, []⟩
  | some _ =>
    match r with
    | FetchOutcome.ok u => ⟨st, ⟨some u, false, true⟩, true, []⟩
    | FetchOutcome.fail401 =>
        ⟨⟨none, none⟩, ⟨none, false, false⟩, true,
         responseErrorInterceptor ⟨some 401, some "/auth/me"⟩⟩
    | FetchOutcome.failNet => ⟨⟨none, none⟩, ⟨none, false, false⟩, true, []⟩

/-- What `ProtectedRoute` renders. `redirectEntry rl fp` is
`<Navigate to='/' state=\x7b\x7b requiresLogin: rl, fromProtectedRoute: fp \x7d\x7d replace />`. -/
inductive GuardRender where
  | placeholder
  | content
  | redirectEntry (requiresLogin fromProtectedRoute : Bool)
deriving DecidableEq

/-- `ProtectedRoute` (StatsCard.jsx lines 364-376): a spinner while
`loading`, the children when `isAuthenticated`, otherwise a redirect to `/`
carrying `requiresLogin: true, fromProtectedRoute: true`. -/
def protectedRouteRender (loading isAuthenticated : Bool) : GuardRender :=
  if loading then GuardRender.placeholder
  else if isAuthenticated then GuardRender.content
  else GuardRender.redirectEntry true true

/-- The navigation state the entry page reads: `location.state`. -/
structure NavState where
  requiresLogin : Bool
  fromProtectedRoute : Bool
deriving DecidableEq

/-- The login-prompt `useEffect` of the `Home` page: it sets
`showLoginPrompt` when `location.state?.requiresLogin` and
`location.state?.fromProtectedRoute` both hold, and it clears the navigation
state via `window.history.replaceState` whenever `requiresLogin` is set.
Result: the prompt flag and the navigation state after the effect. -/
def homePromptEffect (locState : Option NavState) (prompt : Bool) :
    Bool × Option NavState :=
  let marker := match locState with
    | some ns => ns.requiresLogin && ns.fromProtectedRoute
    | none => false
  let rl := match locState with
    | some ns => ns.requiresLogin
    | none => false
  ⟨if marker then true else prompt, if rl then none else locState⟩

/-- Sequential handling of several rejections by the event loop: each failed
request runs the interceptor error handler in turn; the effects accumulate in
order. -/
def runAll (es : List HttpError) : List Effect :=
  (es.map responseErrorInterceptor).flatten

/-- Number of `toast.error` calls in an effect list. -/
def countToastErrors (l : List Effect) : Nat :=
  (l.filter fun x => match x with
    | Effect.toastError _ => true
    | _ => false).length

/-- Number of `removeToken` calls in an effect list. -/
def countRemoveToken (l : List Effect) : Nat :=
  (l.filter fun x => match x with
    | Effect.removeToken => true
    | _ => false).length

/-- Number of `window.location.href` assignments in an effect list. -/
def countRedirects (l : List Effect) : Nat :=
  (l.filter fun x => match x with
    | Effect.setHref _ => true
    | _ => false).length

/-- Claim C1 as stated is false: it asserts that every 401 on an endpoint
other than the login endpoint triggers the session-expired handling, but the
interceptor also exempts any url containing `/agents/career`; at
`⟨some 401, some "/agents/career"⟩` — a non-login endpoint — the token is not
removed (no effect runs at all). -/
theorem c1_counterexample :
    ¬ (∀ e : HttpError, e.status = some 401 → urlHas e.url "/auth/login" = false →
        Effect.removeToken ∈ (responseInterceptorOnError e).1) := by
  intro hcl
  have h := hcl ⟨some 401, some "/agents/career"⟩ rfl (by decide)
  have h0 : (responseInterceptorOnError ⟨some 401, some "/agents/career"⟩).1 = [] := by decide
  rw [h0] at h
  exact (List.not_mem_nil _) h

/-- Claim C1 amended: for every 401 response whose request url contains
neither `/auth/login` nor `/agents/career`, the interceptor performs exactly
`removeToken`, an untagged redirect to the entry path `/`, and one
session-expired toast; applying those effects to any store deletes the token
while leaving the cached user record, and the error is rejected back
unchanged. No in-memory AuthState write occurs in the handler — the reset
comes from the page navigation. -/
theorem c1_amended_interceptor_expiry (e : HttpError) (h1 : e.status = some 401)
    (h2 : urlHas e.url "/auth/login" = false)
    (h3 : urlHas e.url "/agents/career" = false) :
    (responseInterceptorOnError e).1 = sessionExpiredEffects ∧
    (∀ st : LocalStore,
      applyEffects st (responseInterceptorOnError e).1 = ⟨none, st.userJson⟩) ∧
    (responseInterceptorOnError e).2 = e := by
  have heff : responseErrorInterceptor e = sessionExpiredEffects := by
    unfold responseErrorInterceptor
    rw [h1, h2, h3]
    simp
  refine ⟨heff, ?_, rfl⟩
  intro st
  show applyEffects st (responseErrorInterceptor e) = ⟨none, st.userJson⟩
  rw [heff]
  rfl

/-- Witness for `c1_amended_interceptor_expiry` at the 401 rejection of
`GET /auth/me`. -/
theorem c1_witness :
    (responseInterceptorOnError ⟨some 401, some "/auth/me"⟩).1 =
      sessionExpiredEffects ∧
    (∀ st : LocalStore,
      applyEffects st (responseInterceptorOnError ⟨some 401, some "/auth/me"⟩).1 =
        ⟨none, st.userJson⟩) ∧
    (responseInterceptorOnError ⟨some 401, some "/auth/me"⟩).2 =
      ⟨some 401, some "/auth/me"⟩ :=
  c1_amended_interceptor_expiry ⟨some 401, some "/auth/me"⟩ rfl (by decide) (by decide)

/-- Claim C2 as stated is false: three concurrent requests that all receive a
session-invalidating 401 do not produce exactly one clear-and-redirect and
one notification — the handler has no once-guard, so each rejection runs the
full branch and the three handlers together emit three token removals and
three toasts. -/
theorem c2_counterexample :
    ¬ (countRemoveToken
          (runAll (List.replicate 3 ⟨some 401, some "/data/milestones"⟩)) = 1 ∧
       countToastErrors
          (runAll (List.replicate 3 ⟨some 401, some "/data/milestones"⟩)) = 1) := by
  decide

/-- Claim C2 amended: the clear-and-redirect is not guarded, so `n`
concurrent session-invalidating 401 failures produce `n` token removals, `n`
redirect assignments and `n` notifications; only the store outcome is
idempotent (the token key is already gone after the first removal), the
user-visible effects repeat. -/
theorem c2_amended_per_trigger_effects (n : Nat) (e : HttpError)
    (h1 : e.status = some 401) (h2 : urlHas e.url "/auth/login" = false)
    (h3 : urlHas e.url "/agents/career" = false) :
    countRemoveToken (runAll (List.replicate n e)) = n ∧
    countRedirects (runAll (List.replicate n e)) = n ∧
    countToastErrors (runAll (List.replicate n e)) = n := by
  have heff : responseErrorInterceptor e = sessionExpiredEffects := by
    unfold responseErrorInterceptor
    rw [h1, h2, h3]
    simp
  have hcons : ∀ (x : HttpError) (xs : List HttpError),
      runAll (x :: xs) = responseErrorInterceptor x ++ runAll xs := by
    intro x xs
    simp [runAll]
  have hA : ∀ a b : List Effect,
      countRemoveToken (a ++ b) = countRemoveToken a + countRemoveToken b := by
    intro a b
    simp [countRemoveToken, List.filter_append]
  have hB : ∀ a b : List Effect,
      countRedirects (a ++ b) = countRedirects a + countRedirects b := by
    intro a b
    simp [countRedirects, List.filter_append]
  have hC : ∀ a b : List Effect,
      countToastErrors (a ++ b) = countToastErrors a + countToastErrors b := by
    intro a b
    simp [countToastErrors, List.filter_append]
  induction n with
  | zero =>
      refine ⟨?_, ?_, ?_⟩ <;> rfl
  | succ m ih =>
      obtain ⟨ih1, ih2, ih3⟩ := ih
      have e1 : countRemoveToken sessionExpiredEffects = 1 := rfl
      have e2 : countRedirects sessionExpiredEffects = 1 := rfl
      have e3 : countToastErrors sessionExpiredEffects = 1 := rfl
      refine ⟨?_, ?_, ?_⟩
      · rw [List.replicate_succ, hcons, heff, hA, ih1, e1]
        omega
      · rw [List.replicate_succ, hcons, heff, hB, ih2, e2]
        omega
      · rw [List.replicate_succ, hcons, heff, hC, ih3, e3]
        omega

/-- Witness for `c2_amended_per_trigger_effects`: three concurrent 401
failures of `GET /data/milestones` yield three removals, three redirects and
three toasts. -/
theorem c2_witness :
    countRemoveToken
        (runAll (List.replicate 3 ⟨some 401, some "/data/milestones"⟩)) = 3 ∧
    countRedirects
        (runAll (List.replicate 3 ⟨some 401, some "/data/milestones"⟩)) = 3 ∧
    countToastErrors
        (runAll (List.replicate 3 ⟨some 401, some "/data/milestones"⟩)) = 3 :=
  c2_amended_per_trigger_effects 3 ⟨some 401, some "/data/milestones"⟩ rfl
    (by decide) (by decide)

/-- Claim C3 as stated is false: the state reached by a successful login
followed by a page reload — the provider remounted while the persisted token
awaits startup validation — has a non-empty Token Store but
`isAuthenticated = false`, refuting the right-to-left direction of the
claimed equivalence. -/
theorem c3_counterexample :
    ¬ (∀ s : SessionState, Reachable s →
        (s.auth.isAuthenticated = true ↔ s.store.token ≠ none)) := by
  intro hcl
  have hstep1 : SessionStep ⟨⟨none, none⟩, freshAuth⟩
      ⟨⟨some "t", some "u"⟩, ⟨some "u", false, true⟩⟩ :=
    SessionStep.loginOk _ "t" "u" (by decide)
  have hstep2 : SessionStep ⟨⟨some "t", some "u"⟩, ⟨some "u", false, true⟩⟩
      ⟨⟨some "t", some "u"⟩, freshAuth⟩ :=
    SessionStep.reload _
  have hr : Reachable ⟨⟨some "t", some "u"⟩, freshAuth⟩ :=
    Reachable.next _ _ (Reachable.next _ _ Reachable.init hstep1) hstep2
  have h := (hcl _ hr).mpr (by simp)
  simp [freshAuth] at h

/-- Claim C3 amended: in every reachable state of the session subsystem,
`isAuthenticated` implies the Token Store is non-empty; the converse fails
while a persisted token has not yet been validated in the current process
lifetime. -/
theorem c3_amended_auth_implies_token (s : SessionState) (h : Reachable s) :
    s.auth.isAuthenticated = true → s.store.token ≠ none := by
  induction h with
  | init =>
      intro ha
      simp [freshAuth] at ha
  | next s s' hr hstep ih =>
      cases hstep with
      | startupNoToken st h => intro ha; simp at ha
      | startupOk st t u h =>
          intro ha hn
          rw [h] at hn
          exact Option.noConfusion hn
      | startupFailNet st t h => intro ha; simp at ha
      | startupFail401 st t h => intro ha; simp [freshAuth] at ha
      | loginOk s t u h =>
          intro ha hn
          exact Option.noConfusion hn
      | loginFail s => exact fun ha => ih ha
      | logoutStep s => intro ha; simp at ha
      | expired401 s => intro ha; simp [freshAuth] at ha
      | reload s => intro ha; simp [freshAuth] at ha

/-- Witness for `c3_amended_auth_implies_token` at the state reached by a
successful login from the initial state. -/
theorem c3_witness :
    (⟨⟨some "t", some "u"⟩, ⟨some "u", false, true⟩⟩ : SessionState).store.token ≠
      none :=
  c3_amended_auth_implies_token _
    (Reachable.next _ _ Reachable.init (SessionStep.loginOk _ "t" "u" (by decide)))
    rfl

/-- Claim C4 as stated is false: there is no generation counter, and a stale
startup-validation outcome is not discarded. Starting from a persisted store
`⟨some "t0", some "u0"⟩`, if a login succeeds (storing token `"t1"`) while
the startup validation is still in flight and the validation then fails, the
failure handler mutates the state the login produced — it clears the freshly
stored token — instead of being a discarded no-op. -/
theorem c4_counterexample :
    ¬ ((initResolveNetFail
          (loginResolveOk (raceStart ⟨some "t0", some "u0"⟩) "t1" "u1")).rstore =
        (loginResolveOk (raceStart ⟨some "t0", some "u0"⟩) "t1" "u1").rstore) := by
  decide

/-- Claim C4 amended: the final state depends on the arrival order of the two
responses. When the stale validation failure resolves after the successful
login, it clears the login's freshly stored token and user from the store
while the in-memory flag still reads authenticated; in the opposite order the
login's token survives. -/
theorem c4_amended_order_dependent_outcome :
    (initResolveNetFail
        (loginResolveOk (raceStart ⟨some "t0", some "u0"⟩) "t1" "u1")).rstore =
      ⟨none, none⟩ ∧
    (initResolveNetFail
        (loginResolveOk (raceStart ⟨some "t0", some "u0"⟩) "t1" "u1")).rauth.isAuthenticated =
      true ∧
    (loginResolveOk
        (initResolveNetFail (raceStart ⟨some "t0", some "u0"⟩)) "t1" "u1").rstore =
      ⟨some "t1", some "u1"⟩ := by
  decide

/-- Claim C5 as stated is false: the state reached by a successful login
followed by a session-invalidating 401 holds a cached user record with no
token — the interceptor's 401 branch runs `removeToken()` but never removes
the `user` key. -/
theorem c5_counterexample :
    ¬ (∀ s : SessionState, Reachable s →
        (s.store.token = none ↔ s.store.userJson = none)) := by
  intro hcl
  have hstep1 : SessionStep ⟨⟨none, none⟩, freshAuth⟩
      ⟨⟨some "t", some "u"⟩, ⟨some "u", false, true⟩⟩ :=
    SessionStep.loginOk _ "t" "u" (by decide)
  have hstep2 : SessionStep ⟨⟨some "t", some "u"⟩, ⟨some "u", false, true⟩⟩
      ⟨⟨none, some "u"⟩, freshAuth⟩ :=
    SessionStep.expired401 _
  have hr : Reachable ⟨⟨none, some "u"⟩, freshAuth⟩ :=
    Reachable.next _ _ (Reachable.next _ _ Reachable.init hstep1) hstep2
  have h := (hcl _ hr).mp rfl
  exact Option.noConfusion h

/-- Claim C5 amended: the store never holds a token without the cached user
record — login writes both and the full clears (logout, startup-validation
failure) remove both — but it can hold the user record without a token,
because the 401 interceptor clears only the token key. -/
theorem c5_amended_token_implies_user (s : SessionState) (h : Reachable s) :
    s.store.token ≠ none → s.store.userJson ≠ none := by
  induction h with
  | init => intro ht; exact absurd rfl ht
  | next s s' hr hstep ih =>
      cases hstep with
      | startupNoToken st h => exact ih
      | startupOk st t u h => exact ih
      | startupFailNet st t h => intro ht; exact absurd rfl ht
      | startupFail401 st t h => intro ht; exact absurd rfl ht
      | loginOk s t u h => intro ht hu; exact Option.noConfusion hu
      | loginFail s => exact ih
      | logoutStep s => intro ht; exact absurd rfl ht
      | expired401 s => intro ht; exact absurd rfl ht
      | reload s => exact ih

/-- Witness for `c5_amended_token_implies_user` at the state reached by a
successful login from the initial state. -/
theorem c5_witness :
    (⟨⟨some "t", some "u"⟩, ⟨some "u", false, true⟩⟩ : SessionState).store.userJson ≠
      none :=
  c5_amended_token_implies_user _
    (Reachable.next _ _ Reachable.init (SessionStep.loginOk _ "t" "u" (by decide)))
    (by simp)

/-- On a rejection whose request url is `/auth/login`, the interceptor never
removes the token and never assigns `window.location.href`, whatever the
status: the 401 branch is exempted by the url check and the remaining
branches only toast. -/
theorem loginUrlNoSessionMutation (status : Option Nat) :
    Effect.removeToken ∉ responseErrorInterceptor ⟨status, some "/auth/login"⟩ ∧
    ∀ p, Effect.setHref p ∉ responseErrorInterceptor ⟨status, some "/auth/login"⟩ := by
  rcases status with _ | s
  · exact ⟨by decide, fun p => by simp [responseErrorInterceptor, statusGe500]⟩
  · by_cases h401 : s = 401
    · subst h401
      exact ⟨by decide, fun p => by
        have h : responseErrorInterceptor ⟨some 401, some "/auth/login"⟩ = [] := by
          decide
        rw [h]
        exact List.not_mem_nil _⟩
    · have hne : ¬ ((⟨some s, some "/auth/login"⟩ : HttpError).status = some 401) := by
        simp [h401]
      constructor
      · simp only [responseErrorInterceptor, if_neg hne]
        split <;> simp
      · intro p
        simp only [responseErrorInterceptor, if_neg hne]
        split <;> simp

/-- Claim C6 confirmed: any failure of the login request — 401 (wrong
password), any other status, or a connectivity failure — leaves the Token
Store unchanged (in particular empty when it was empty), leaves
`isAuthenticated` as it was, performs no token removal and no redirect, and
returns the error object unchanged to the calling form, which displays it
inline. -/
theorem c6_login_failure_isolated (uj : Option String) (am : AuthMem)
    (status : Option Nat) :
    (loginFlowFail ⟨⟨none, uj⟩, am⟩ status).1.store = ⟨none, uj⟩ ∧
    (loginFlowFail ⟨⟨none, uj⟩, am⟩ status).1.auth.isAuthenticated =
      am.isAuthenticated ∧
    Effect.removeToken ∉ (loginFlowFail ⟨⟨none, uj⟩, am⟩ status).2.1 ∧
    (∀ p, Effect.setHref p ∉ (loginFlowFail ⟨⟨none, uj⟩, am⟩ status).2.1) ∧
    (loginFlowFail ⟨⟨none, uj⟩, am⟩ status).2.2 = ⟨status, some "/auth/login"⟩ :=
  ⟨rfl, rfl, (loginUrlNoSessionMutation status).1,
   (loginUrlNoSessionMutation status).2, rfl⟩

/-- Claim C7 confirmed: startup with no stored token goes directly to an
unauthenticated, non-loading state without issuing a validation request;
with a stored token the request is issued, success authenticates with the
server-refreshed user, and either failure clears both storage keys and ends
unauthenticated. -/
theorem c7_startup_validation (uj : Option String) (t u : String) :
    initAuthRun ⟨none, uj⟩ (FetchOutcome.ok u) =
      ⟨⟨none, uj⟩, ⟨none, false, false⟩, false, []⟩ ∧
    initAuthRun ⟨none, uj⟩ FetchOutcome.fail401 =
      ⟨⟨none, uj⟩, ⟨none, false, false⟩, false, []⟩ ∧
    initAuthRun ⟨none, uj⟩ FetchOutcome.failNet =
      ⟨⟨none, uj⟩, ⟨none, false, false⟩, false, []⟩ ∧
    initAuthRun ⟨some t, uj⟩ (FetchOutcome.ok u) =
      ⟨⟨some t, uj⟩, ⟨some u, false, true⟩, true, []⟩ ∧
    (initAuthRun ⟨some t, uj⟩ FetchOutcome.fail401).outStore = ⟨none, none⟩ ∧
    (initAuthRun ⟨some t, uj⟩ FetchOutcome.fail401).outAuth =
      ⟨none, false, false⟩ ∧
    (initAuthRun ⟨some t, uj⟩ FetchOutcome.fail401).requested = true ∧
    initAuthRun ⟨some t, uj⟩ FetchOutcome.failNet =
      ⟨⟨none, none⟩, ⟨none, false, false⟩, true, []⟩ :=
  ⟨rfl, rfl, rfl, rfl, rfl, rfl, rfl, rfl⟩

/-- Claim C8 confirmed: the guard renders the loading placeholder whenever
`loading`, renders protected content exactly in the `¬loading ∧
isAuthenticated` case, and otherwise redirects to the entry point with both
marker flags set; the entry page's effect raises the login prompt exactly
when both flags are present, clears the navigation state whenever
`requiresLogin` is set, and on a plain visit (no navigation state) leaves the
prompt untouched — so a later reload after the state was cleared does not
re-trigger it. -/
theorem c8_route_guard_and_prompt (a p b : Bool) :
    protectedRouteRender true a = GuardRender.placeholder ∧
    protectedRouteRender false true = GuardRender.content ∧
    protectedRouteRender false false = GuardRender.redirectEntry true true ∧
    protectedRouteRender true a ≠ GuardRender.content ∧
    homePromptEffect (some ⟨true, true⟩) p = ⟨true, none⟩ ∧
    homePromptEffect (some ⟨true, false⟩) p = ⟨p, none⟩ ∧
    homePromptEffect (some ⟨false, b⟩) p = ⟨p, some ⟨false, b⟩⟩ ∧
    homePromptEffect none p = ⟨p, none⟩ :=
  ⟨rfl, rfl, rfl, by simp [protectedRouteRender], rfl, rfl, rfl, rfl⟩

/-- Claim C9 confirmed: a connectivity failure (no response, status `none`)
produces no effect and rejects the error unchanged; a 5xx status produces
exactly one server-error toast — no token removal and no redirect — and also
rejects the error unchanged; the two propagated errors differ (present vs.
absent response status), so callers can distinguish the classes. -/
theorem c9_server_and_network_errors (k : Nat) (u : Option String) :
    responseInterceptorOnError ⟨none, u⟩ = ⟨[], ⟨none, u⟩⟩ ∧
    (responseInterceptorOnError ⟨some (500 + k), u⟩).1 =
      [Effect.toastError "Server error. Please try again later."] ∧
    (responseInterceptorOnError ⟨some (500 + k), u⟩).2 = ⟨some (500 + k), u⟩ ∧
    Effect.removeToken ∉ (responseInterceptorOnError ⟨some (500 + k), u⟩).1 ∧
    (∀ p, Effect.setHref p ∉ (responseInterceptorOnError ⟨some (500 + k), u⟩).1) ∧
    (⟨none, u⟩ : HttpError) ≠ ⟨some (500 + k), u⟩ := by
  have h401 : (500 + k = 401) = False := eq_false (by omega)
  have heff : responseErrorInterceptor ⟨some (500 + k), u⟩ =
      [Effect.toastError "Server error. Please try again later."] := by
    simp [responseErrorInterceptor, statusGe500, h401]
  have hpair : (responseInterceptorOnError ⟨some (500 + k), u⟩).1 =
      responseErrorInterceptor ⟨some (500 + k), u⟩ := rfl
  refine ⟨rfl, ?_, rfl, ?_, ?_, by simp⟩
  · rw [hpair, heff]
  · rw [hpair, heff]
    simp
  · intro p
    rw [hpair, heff]
    simp

/-- Claim C10 confirmed: a 401 whose request url contains `/agents/career` is
exempted exactly like the login endpoint — the interceptor performs no effect
(no token removal, no redirect, no toast) and rejects the error unchanged to
the caller. -/
theorem c10_career_endpoint_exempt (e : HttpError) (h1 : e.status = some 401)
    (h2 : urlHas e.url "/agents/career" = true) :
    responseInterceptorOnError e = ⟨[], e⟩ := by
  have heff : responseErrorInterceptor e = [] := by
    unfold responseErrorInterceptor
    rw [h1, h2]
    simp
  show (⟨responseErrorInterceptor e, e⟩ : List Effect × HttpError) = ⟨[], e⟩
  rw [heff]

/-- Witness for `c10_career_endpoint_exempt` at the concrete career-agent
request url. -/
theorem c10_witness :
    responseInterceptorOnError ⟨some 401, some "/agents/career"⟩ =
      ⟨[], ⟨some 401, some "/agents/career"⟩⟩ :=
  c10_career_endpoint_exempt ⟨some 401, some "/agents/career"⟩ rfl (by decide)

end Goalstone
